import Mathlib

deriving instance DecidableEq for Except

/-!
Verification of the Fibank chatbot (ChatBot-for-Fibank) against its
natural-language specification.

The Python sources are shallowly embedded: pure string manipulation is
modelled on `String` (whose data is a `List Char`), dictionaries are
modelled as association lists in insertion order, the stateful chatbot
turn is modelled as an explicit state-passing function, and the external
collaborators (the langdetect library, the Gemini generative model and
the sentence-transformer embedding model) are oracle parameters.
Python exceptions at the points where the source can raise are modelled
with `Except`; `try/except` blocks become `match`es on the result.
-/

namespace Fibank

/-! ### Python string primitives

`str.lower`, `str.strip`, `str.split`, `str.join`, substring tests and
`str.title`, restricted to the character ranges the data actually uses
(ASCII and Cyrillic).  These model the CPython behaviour on those
ranges. -/

/-- Lowercasing of a single character as Python `str.lower` does it, for
ASCII letters and the Cyrillic block (U+0400..U+042F map into
U+0450..U+044F). -/
def pyCharLower (c : Char) : Char :=
  if 'A' ≤ c ∧ c ≤ 'Z' then Char.ofNat (c.toNat + 32)
  else if 0x410 ≤ c.toNat ∧ c.toNat ≤ 0x42F then Char.ofNat (c.toNat + 32)
  else if 0x400 ≤ c.toNat ∧ c.toNat ≤ 0x40F then Char.ofNat (c.toNat + 80)
  else c

/-- Uppercasing of a single character as Python `str.upper` does it, for
ASCII letters and the Cyrillic block. -/
def pyCharUpper (c : Char) : Char :=
  if 'a' ≤ c ∧ c ≤ 'z' then Char.ofNat (c.toNat - 32)
  else if 0x430 ≤ c.toNat ∧ c.toNat ≤ 0x44F then Char.ofNat (c.toNat - 32)
  else if 0x450 ≤ c.toNat ∧ c.toNat ≤ 0x45F then Char.ofNat (c.toNat - 80)
  else c

/-- Python `str.lower`. -/
def pyLower (s : String) : String := ⟨s.data.map pyCharLower⟩

/-- Python `str.strip()` on the character list: drop whitespace from both
ends. -/
def pyStripL (l : List Char) : List Char :=
  ((l.dropWhile Char.isWhitespace).reverse.dropWhile Char.isWhitespace).reverse

/-- Python `str.strip()`. -/
def pyStrip (s : String) : String := ⟨pyStripL s.data⟩

/-- Python truthiness test `not s or not s.strip()` used for blank input. -/
def pyBlank (s : String) : Bool := s == "" || pyStrip s == ""

/-- Python `sep.join(parts)` on character lists. -/
def pyJoinL (sep : List Char) : List (List Char) → List Char
  | [] => []
  | [x] => x
  | x :: y :: xs => x ++ sep ++ pyJoinL sep (y :: xs)

/-- Python `sep.join(parts)`. -/
def pyJoin (sep : String) (parts : List String) : String :=
  ⟨pyJoinL sep.data (parts.map String.data)⟩

/-- Python `s.split(c)` for a one-character separator, on character
lists.  Mirrors `str.split(sep)` with an explicit separator: adjacent
separators produce empty chunks and the empty string yields `[""]`. -/
def pySplitCharL (sep : Char) : List Char → List (List Char)
  | [] => [[]]
  | c :: cs =>
    match pySplitCharL sep cs with
    | [] => [[]]
    | t :: ts => if c = sep then [] :: t :: ts else (c :: t) :: ts

/-- Python `s.split(c)` for a one-character separator. -/
def pySplitChar (sep : Char) (s : String) : List String :=
  (pySplitCharL sep s.data).map String.mk

/-- Python `s.split("\n- ")`, the three-character section delimiter used
by the specific-product renderer, scanning left to right. -/
def pySplitNLDashL : List Char → List (List Char)
  | '\n' :: '-' :: ' ' :: rest => [] :: pySplitNLDashL rest
  | c :: rest =>
    match pySplitNLDashL rest with
    | [] => [[c]]
    | t :: ts => (c :: t) :: ts
  | [] => [[]]

/-- Python `s.split("\n- ")`. -/
def pySplitNLDash (s : String) : List String :=
  (pySplitNLDashL s.data).map String.mk

/-- Python substring test `needle in hay`. -/
def pyContains (hay needle : String) : Bool :=
  decide (needle.data <:+: hay.data)

/-- Python `s.replace(c, '')`: remove every occurrence of a character. -/
def pyRemoveChar (c : Char) (s : String) : String :=
  ⟨s.data.filter (· ≠ c)⟩

/-- Cased-letter test backing the `str.title` model (ASCII and Cyrillic
letters). -/
def pyIsCased (c : Char) : Bool :=
  ('a' ≤ c ∧ c ≤ 'z') ∨ ('A' ≤ c ∧ c ≤ 'Z') ∨
    (0x400 ≤ c.toNat ∧ c.toNat ≤ 0x4FF)

/-- Worker for `pyTitle`: the flag records whether the previous character
was cased. -/
def pyTitleAux : Bool → List Char → List Char
  | _, [] => []
  | prevCased, c :: cs =>
    (if pyIsCased c then (if prevCased then pyCharLower c else pyCharUpper c) else c)
      :: pyTitleAux (pyIsCased c) cs

/-- Python `str.title()`: uppercase every cased character that follows a
non-cased one, lowercase the rest. -/
def pyTitle (s : String) : String := ⟨pyTitleAux false s.data⟩

/-- Python `repr` of a list of strings, as an f-string renders a list
value (`['a', 'b']`). -/
def pyReprStrList (vs : List String) : String :=
  "[" ++ pyJoin ", " (vs.map (fun v => "'" ++ v ++ "'")) ++ "]"

/-- Python slice `l[-n:]` for `n ≥ 1`. -/
def pyTakeLast {α : Type} (n : ℕ) (l : List α) : List α :=
  l.drop (l.length - n)

/-! ### Data model

Attribute values in the JSON catalog files are free-text strings, with
lists possible for fields like `features`/`benefits` (the source
explicitly branches on `isinstance(..., list)`).  Python dictionaries
are modelled as association lists in insertion order; overwriting a key
keeps its position, new keys are appended, matching `dict` semantics. -/

inductive AttrVal where
  | str (v : String)
  | list (vs : List String)
deriving DecidableEq

/-- Python truthiness of an attribute value (`if value:`). -/
def AttrVal.truthy : AttrVal → Bool
  | .str v => v ≠ ""
  | .list vs => vs ≠ []

/-- Rendering of an attribute value inside an f-string. -/
def AttrVal.fstr : AttrVal → String
  | .str v => v
  | .list vs => pyReprStrList vs

/-- Raw attribute mapping of one product, as loaded from JSON. -/
abbrev AttrMap := List (String × AttrVal)

/-- Python `d[k]`-style lookup returning `none` when absent
(`d.get(k)`). -/
def dictGet? {β : Type} (d : List (String × β)) (k : String) : Option β :=
  match d with
  | [] => none
  | p :: rest => if p.1 = k then some p.2 else dictGet? rest k

/-- Python `d.get(k, default)`. -/
def dictGetD {β : Type} (d : List (String × β)) (k : String) (dflt : β) : β :=
  (dictGet? d k).getD dflt

/-- Key membership test `k in d`. -/
def dictHas {β : Type} (d : List (String × β)) (k : String) : Bool :=
  d.any (fun p => decide (p.1 = k))

/-- Python `d[k] = v`: overwrite in place if the key exists, append
otherwise. -/
def dictInsert {β : Type} (d : List (String × β)) (k : String) (v : β) :
    List (String × β) :=
  if dictHas d k then d.map (fun p => if p.1 = k then (k, v) else p)
  else d ++ [(k, v)]

/-- One product record of the combined catalog (`_combine_products`
builds these).  The Python dict field `type` is called `type'` here
because `type` is a Lean keyword. -/
structure Product where
  name : String
  type' : String
  category : String
  description : AttrVal
  raw_data : AttrMap
deriving DecidableEq

/-- A source dataset (`credit_cards.json` / `credits.json`): a two-level
mapping category → product name → attribute map. -/
abbrev Dataset := List (String × List (String × AttrMap))

/-- Key normalization in `_combine_products`:
`name.replace('"', '').replace('„', '').replace('"', '')` (the third
replace repeats the ASCII quote of the first). -/
def normalizeKey (name : String) : String :=
  pyRemoveChar '"' (pyRemoveChar '„' (pyRemoveChar '"' name))

/-- The product record `_combine_products` stores for one source entry. -/
def productEntry (type' category name : String) (info : AttrMap) : Product :=
  { name := name
    type' := type'
    category := category
    description := dictGetD info "информация за продукта" (.str "")
    raw_data := info }

/-- Embedding of `FibankChatbot._combine_products`: process the credit
cards dataset, then the credits dataset, inserting each product under
its normalized name. -/
def combine_products (credit_cards credits : Dataset) : List (String × Product) :=
  let combined : List (String × Product) := []
  let combined := credit_cards.foldl (fun acc ct =>
    ct.2.foldl (fun acc cn =>
      dictInsert acc (normalizeKey cn.1) (productEntry "credit_card" ct.1 cn.1 cn.2)) acc)
    combined
  credits.foldl (fun acc ct =>
    ct.2.foldl (fun acc cn =>
      dictInsert acc (normalizeKey cn.1) (productEntry "credit" ct.1 cn.1 cn.2)) acc)
    combined

/-- One flattened source entry, tagged with the kind of its dataset, in
processing order. -/
structure RawEntry where
  kind : String
  category : String
  name : String
  attrs : AttrMap
deriving DecidableEq

/-- The product record a raw entry turns into. -/
def RawEntry.product (e : RawEntry) : Product :=
  productEntry e.kind e.category e.name e.attrs

/-- Flattening of one dataset into processing order. -/
def flattenDataset (kind : String) (ds : Dataset) : List RawEntry :=
  ds.flatMap (fun ct => ct.2.map (fun cn => ⟨kind, ct.1, cn.1, cn.2⟩))

/-- All source entries in the order `_combine_products` processes them:
the cards dataset first, then the loans dataset. -/
def allEntries (credit_cards credits : Dataset) : List RawEntry :=
  flattenDataset "credit_card" credit_cards ++ flattenDataset "credit" credits

/-- Insertion step of the merge, on flattened entries. -/
def insertEntry (acc : List (String × Product)) (e : RawEntry) :
    List (String × Product) :=
  dictInsert acc (normalizeKey e.name) e.product

/-! ### Language detection (`utils/i18n.py`) -/

/-- The Bulgarian Cyrillic alphabet subset checked by `detect_language`. -/
def bulgarian_chars : List Char := "абвгдежзийклмнопрстуфхцчшщъьюя".data

/-- The fixed set of common Bulgarian banking terms checked as
substrings (a Python `set`; iteration order is irrelevant under
`any`). -/
def bulgarian_words : List String :=
  ["заем", "кредит", "карта", "лихва", "банка", "пари", "плащане",
   "ипотека", "потребителски", "овърдрафт", "филиал", "клан",
   "документи", "заявка", "процес", "онлайн", "помощ", "информация"]

/-- Outcome of one call into the external `langdetect` library:
a detected language code, a `LangDetectException` (which
`detect_language` catches), or any other exception (which it does
not). -/
inductive LangDetectResult where
  | detected (lang : String)
  | failed
  | raised
deriving DecidableEq

/-- Embedding of `detect_language` from `utils/i18n.py`.  The
`langdetect` collaborator is the oracle `detect`; an exception other
than `LangDetectException` escapes as `.error`. -/
def detect_language (detect : String → LangDetectResult) (text : String) :
    Except Unit String :=
  if pyBlank text then .ok "en"
  else
    let text_lower := pyLower text
    if text_lower.data.any (fun c => bulgarian_chars.contains c) then .ok "bg"
    else if bulgarian_words.any (fun word => pyContains text_lower word) then .ok "bg"
    else
      match detect text with
      | .detected d => .ok (if d = "en" ∨ d = "bg" then d else "en")
      | .failed => .ok "en"
      | .raised => .error ()

/-- A character of the Unicode Cyrillic block (the notion used by the
specification's claim about Cyrillic input). -/
def isCyrillicChar (c : Char) : Bool :=
  decide (0x400 ≤ c.toNat ∧ c.toNat ≤ 0x4FF)

/-! ### Intent classification (`FibankChatbot.find_intent`)

A compiled regex is abstracted as a Boolean matcher on the lowercased
input text. -/

abbrev Pattern := String → Bool

/-- Inner pattern loop of `find_intent` for one intent category: each
match scores the fixed 0.8; on the first match that strictly beats the
current best the category is recorded and the pattern loop breaks. -/
def find_intent_inner (intent : String) (patterns : List Pattern)
    (text_lower : String) (best : String × ℚ) : String × ℚ :=
  match patterns with
  | [] => best
  | p :: ps =>
    if p text_lower then
      let score : ℚ := 0.8
      if score > best.2 then (intent, score)
      else find_intent_inner intent ps text_lower best
    else find_intent_inner intent ps text_lower best

/-- Embedding of `FibankChatbot.find_intent`: scan the configured intent
categories in iteration order, starting from `("general", 0.0)`. -/
def find_intent (intent_patterns : List (String × List Pattern)) (text : String) :
    String × ℚ :=
  let text_lower := pyLower text
  intent_patterns.foldl (fun best ip => find_intent_inner ip.1 ip.2 text_lower best)
    ("general", 0)

/-! ### Colorama constants -/

namespace Fore

def RED : String := "\x1b[31m"

def GREEN : String := "\x1b[32m"

def YELLOW : String := "\x1b[33m"

def BLUE : String := "\x1b[34m"

def MAGENTA : String := "\x1b[35m"

def CYAN : String := "\x1b[36m"

end Fore

namespace Style

def RESET_ALL : String := "\x1b[0m"

end Style

/-! ### Rendering service (`services/rendering_service.py`)

Every renderer catches exceptions internally; the only operation of the
embedding that can raise is `.split` applied to a list-valued attribute,
which each renderer's handler converts as the source does. -/

/-- Embedding of `RenderingService.get_credit_card_summary`: split the
product information on `;`, keep stripped lines whose lowercase form
contains one of the key domain keywords, return the first three joined
with newline + indent.  A truthy list-valued field makes `.split` raise,
and the handler returns the empty summary; a falsy field returns the
empty summary directly. -/
def get_credit_card_summary (card_info : AttrMap) : String :=
  match dictGetD card_info "информация за продукта" (.str "") with
  | .list _ => ""
  | .str info =>
    if info = "" then ""
    else
      let lines := pySplitChar ';' info
      let key_info := (lines.map pyStrip).filter (fun line =>
        ["лимит:", "годишна такса:", "cashback:"].any
          (fun keyword => pyContains (pyLower line) keyword))
      pyJoin "\n   " (key_info.take 3)

/-- Embedding of `RenderingService.get_loan_summary`: of the first two
lines of the product information, keep those that are non-empty after
stripping and do not start with the bullet marker `-`, joined with
newline + indent. -/
def get_loan_summary (loan_info : AttrMap) : String :=
  match dictGetD loan_info "информация за продукта" (.str "") with
  | .list _ => ""
  | .str info =>
    if info = "" then ""
    else
      let lines := pySplitChar '\n' info
      let key_info := ((lines.take 2).map pyStrip).filter (fun line =>
        decide (line ≠ "" ∧ line.data.head? ≠ some '-'))
      pyJoin "\n   " key_info

/-- Embedding of `RenderingService.render_product_list`. -/
def render_product_list (header : String) (items : List (String × AttrMap))
    (summary_fn : AttrMap → String) (link_label : String) (language : String) :
    String :=
  let response := Fore.BLUE ++ "💳 " ++ header ++ Style.RESET_ALL ++ "\n\n"
  if items = [] then
    response ++ (if language = "bg"
      then Fore.YELLOW ++ "Няма налични продукти в тази категория." ++ Style.RESET_ALL
      else Fore.YELLOW ++ "No products available in this category." ++ Style.RESET_ALL)
  else
    let response := items.foldl (fun response item =>
      let response := response ++ "🔹 **" ++ item.1 ++ "**\n"
      let summary := summary_fn item.2
      let response := if summary ≠ "" then response ++ "   " ++ summary ++ "\n" else response
      let link := dictGetD item.2 "link" (.str "")
      if link.truthy
      then response ++ "   🔗 " ++ link_label ++ ": " ++ link.fstr ++ "\n\n"
      else response ++ "\n") response
    response ++ (if language = "bg"
      then Fore.YELLOW ++ "За повече детайли за конкретен продукт, просто го споменете по име."
        ++ Style.RESET_ALL
      else Fore.YELLOW ++ "For more details about a specific product, just mention it by name."
        ++ Style.RESET_ALL)

/-- Section rendering loop of `render_specific_product`: the first
section is the key benefits, every later one a technical-details
bullet. -/
def render_sections (language : String) : ℕ → List String → String
  | _, [] => ""
  | i, s :: rest =>
    (if i = 0 then
      (if language = "bg" then "**Основни предимства:**\n" else "**Key Benefits:**\n")
        ++ pyStrip s ++ "\n\n"
     else
      (if language = "bg" then "**Технически детайли:**\n- " else "**Technical Details:**\n- ")
        ++ pyStrip s ++ "\n\n")
    ++ render_sections language (i + 1) rest

/-- Link and closing-tip suffix of `render_specific_product`. -/
def render_specific_tail (response : String) (product_data : AttrMap)
    (language : String) : String :=
  let link := dictGetD product_data "link" (.str "")
  let response := if link.truthy then
      (if language = "bg"
       then response ++ Fore.GREEN ++ "🔗 За повече информация: " ++ link.fstr
         ++ Style.RESET_ALL ++ "\n\n"
       else response ++ Fore.GREEN ++ "🔗 For more information: " ++ link.fstr
         ++ Style.RESET_ALL ++ "\n\n")
    else response
  if language = "bg"
  then response ++ Fore.YELLOW
    ++ "💡 Можете да попитате за други продукти или да сравните с друг продукт."
    ++ Style.RESET_ALL
  else response ++ Fore.YELLOW
    ++ "💡 You can ask about other products or compare with another product."
    ++ Style.RESET_ALL

/-- Localized apology of `render_specific_product`'s exception
handler. -/
def render_specific_error (language : String) : String :=
  if language = "bg"
  then Fore.RED ++ "Съжалявам, възникна грешка при показването на информацията за продукта."
    ++ Style.RESET_ALL
  else Fore.RED ++ "Sorry, an error occurred while showing the product information."
    ++ Style.RESET_ALL

/-- Embedding of `RenderingService.render_specific_product`.  A truthy
list-valued product information field makes `.split('\n- ')` raise and
the handler returns the localized apology. -/
def render_specific_product (product_name : String) (product_data : AttrMap)
    (language : String) : String :=
  let response := if language = "bg"
    then Fore.BLUE ++ "💳 Информация за " ++ product_name ++ ":" ++ Style.RESET_ALL ++ "\n\n"
    else Fore.BLUE ++ "💳 Information about " ++ product_name ++ ":" ++ Style.RESET_ALL ++ "\n\n"
  match dictGetD product_data "информация за продукта" (.str "") with
  | .list vs =>
    if vs = [] then render_specific_tail response product_data language
    else render_specific_error language
  | .str info =>
    let response := if info ≠ ""
      then response ++ render_sections language 0 (pySplitNLDash info)
      else response
    render_specific_tail response product_data language

/-- Per-category block of `render_category_overview`. -/
def render_category_item (language : String) (category_name : String)
    (products : List (String × AttrMap)) : String :=
  let response := "🔹 **" ++ category_name ++ "** (" ++ toString products.length ++ " "
  let response := response ++ (if language = "bg" then "продукта)\n" else "products)\n")
  let response := (products.take 3).foldl (fun r cn => r ++ "   • " ++ cn.1 ++ "\n") response
  let response := if products.length > 3 then
      (if language = "bg"
       then response ++ "   • и още " ++ toString (products.length - 3) ++ " продукта...\n"
       else response ++ "   • and " ++ toString (products.length - 3) ++ " more products...\n")
    else response
  response ++ "\n"

/-- Embedding of `RenderingService.render_category_overview`. -/
def render_category_overview (categories : Dataset) (language : String) : String :=
  let response := if language = "bg"
    then Fore.BLUE ++ "💰 Предлагаме продукти в следните категории:" ++ Style.RESET_ALL ++ "\n\n"
    else Fore.BLUE ++ "💰 We offer products in the following categories:" ++ Style.RESET_ALL ++ "\n\n"
  categories.foldl (fun r ct => r ++ render_category_item language ct.1 ct.2) response

/-! ### Semantic service (`services/semantic_service.py`)

The sentence-transformer model and the cosine-similarity routine are
external collaborators, passed in as `encode` and `similarity`; the flag
`encode_ok` says whether an `encode` call succeeds (an exception is the
alternative).  Embedding vectors are abstract rational vectors. -/

abbrev Vec := List ℚ

/-- The similarity threshold literal `0.3` of the source, written in the
reduced constructor form of `ℚ` so that kernel evaluation of concrete
runs can compute with it (`q03_eq` identifies it with `0.3`). -/
def q03 : ℚ := ⟨3, 10, by decide, by decide⟩

/-- The knowledge-base structure built in `_setup_knowledge_base`. -/
structure KnowledgeBase where
  products : List (String × Product)
  credit_cards : Dataset
  credits : Dataset
deriving DecidableEq

/-- State of `SemanticService`: the cached knowledge base, the parallel
text/key arrays and the lazily built embedding matrix. -/
structure SemanticService where
  knowledge_base : Option KnowledgeBase
  product_texts : List String
  product_keys : List String
  embeddings : Option (List Vec)
deriving DecidableEq

/-- The freshly constructed service (`SemanticService.__init__`). -/
def SemanticService.init : SemanticService :=
  { knowledge_base := none, product_texts := [], product_keys := [], embeddings := none }

/-- Embedding of `SemanticService.set_knowledge_base`: store the new
knowledge base and clear the cached embeddings, texts and keys. -/
def set_knowledge_base (s : SemanticService) (kb : KnowledgeBase) : SemanticService :=
  { s with knowledge_base := some kb, embeddings := none,
           product_texts := [], product_keys := [] }

/-- The text representation of one product built by
`_prepare_product_texts`: name and description, then the optional raw
`информация за продукта`, `features` and `benefits` fields (lists joined
with spaces, other values interpolated). -/
def product_text (product : Product) : String :=
  let text := product.name ++ " " ++ product.description.fstr
  let text := match dictGet? product.raw_data "информация за продукта" with
    | some v => text ++ " " ++ v.fstr
    | none => text
  let text := match dictGet? product.raw_data "features" with
    | some (.list vs) => text ++ " " ++ pyJoin " " vs
    | some (.str v) => text ++ " " ++ v
    | none => text
  match dictGet? product.raw_data "benefits" with
  | some (.list vs) => text ++ " " ++ pyJoin " " vs
  | some (.str v) => text ++ " " ++ v
  | none => text

/-- Embedding of `SemanticService._prepare_product_texts`: fill the
parallel text and key arrays from the knowledge base, unless texts are
already prepared, no knowledge base is set, or it has no products. -/
def prepare_product_texts (s : SemanticService) : SemanticService :=
  if s.product_texts ≠ [] then s
  else
    match s.knowledge_base with
    | none => s
    | some kb =>
      if kb.products = [] then s
      else
        { s with
          product_texts := kb.products.map (fun kp => product_text kp.2)
          product_keys := kb.products.map (fun kp => kp.1) }

/-- Embedding of `SemanticService.build_embeddings`: return the cached
matrix if present, otherwise prepare the texts and encode them; an
encoding failure leaves the cache empty and yields the empty matrix. -/
def build_embeddings (encode : String → Vec) (encode_ok : Bool) (s : SemanticService) :
    SemanticService × List Vec :=
  match s.embeddings with
  | some e => (s, e)
  | none =>
    let s := prepare_product_texts s
    if s.product_texts = [] then (s, [])
    else if encode_ok then
      let embs := s.product_texts.map encode
      ({ s with embeddings := some embs }, embs)
    else (s, [])

/-- Similarity value at an index, total (`similarities[idx]` at the
in-bounds indices the selection produces). -/
def simAt (sims : List ℚ) (i : ℕ) : ℚ := (sims[i]?).getD 0

/-- Model of `np.argsort(similarities)[::-1]`: the indices of the
similarity vector ordered by descending similarity (NumPy leaves the
order among ties unspecified; a stable descending sort is one
admissible choice). -/
def argsortDesc (sims : List ℚ) : List ℕ :=
  List.insertionSort (fun i j => simAt sims j ≤ simAt sims i) (List.range sims.length)

/-- Result loop of `find_similar_products`: for each candidate index in
order read the similarity, apply the threshold filter and look up key
and product; a failing index or key lookup is an exception that aborts
the whole loop (`none`). -/
def collect_similar (product_keys : List String) (lookup : String → Option Product)
    (similarities : List ℚ) (threshold : ℚ) :
    List ℕ → Option (List (String × Product × ℚ))
  | [] => some []
  | idx :: rest =>
    match similarities[idx]? with
    | none => none
    | some similarity =>
      if similarity > threshold then
        match product_keys[idx]? with
        | none => none
        | some product_key =>
          match lookup product_key with
          | none => none
          | some product_data =>
            (collect_similar product_keys lookup similarities threshold rest).map
              (fun results => (product_key, product_data, similarity) :: results)
      else collect_similar product_keys lookup similarities threshold rest

/-- Embedding of `SemanticService.find_similar_products`: build (or
fetch) the embeddings, encode the query, rank all products by cosine
similarity, keep the top `top_k` above the threshold.  Any exception in
the body (query encoding, key or product lookup) is caught and yields
the empty result. -/
def find_similar_products (encode : String → Vec) (encode_ok : Bool)
    (similarity : Vec → Vec → ℚ) (s : SemanticService) (query : String)
    (top_k : ℕ) (threshold : ℚ) : SemanticService × List (String × Product × ℚ) :=
  let se := build_embeddings encode encode_ok s
  let s := se.1
  let embeddings := se.2
  if embeddings.length = 0 then (s, [])
  else if ¬ encode_ok then (s, [])
  else
    let query_embedding := encode query
    let similarities := embeddings.map (fun e => similarity query_embedding e)
    let top_indices := (argsortDesc similarities).take top_k
    match collect_similar s.product_keys
        (fun k =>
          match s.knowledge_base with
          | none => none
          | some kb => dictGet? kb.products k)
        similarities threshold top_indices with
    | some results => (s, results)
    | none => (s, [])

/-- The operations a client can perform on the semantic service, each
carrying the success flag of its `encode` calls. -/
inductive SemOp where
  | setKB (kb : KnowledgeBase)
  | build (ok : Bool)
  | findSim (ok : Bool) (query : String) (top_k : ℕ) (threshold : ℚ)

/-- State transition of one semantic-service operation. -/
def SemOp.apply (encode : String → Vec) (similarity : Vec → Vec → ℚ) :
    SemanticService → SemOp → SemanticService
  | s, .setKB kb => set_knowledge_base s kb
  | s, .build ok => (build_embeddings encode ok s).1
  | s, .findSim ok q k t => (find_similar_products encode ok similarity s q k t).1

/-! ### Gemini service (`services/gemini_service.py`) -/

/-- The Gemini service: `is_available` is true exactly when the API key
was accepted and the model object was created. -/
structure GeminiService where
  is_available : Bool
deriving DecidableEq

/-- Outcome of one `generate_content` attempt: a response object with a
text, a falsy/empty response, or an exception. -/
inductive GemOutcome where
  | resp (text : String)
  | empty
  | exc
deriving DecidableEq

/-- Retry loop of `GeminiService.generate_response` over the attempt
indices `range (max_retries + 1)`: the first non-empty text is returned
stripped; an exception on the last attempt returns `None`. -/
def gemini_generate_loop (attempt : ℕ → GemOutcome) (max_retries : ℕ) :
    List ℕ → Option String
  | [] => none
  | i :: rest =>
    match attempt i with
    | .resp t =>
      if t ≠ "" then some (pyStrip t) else gemini_generate_loop attempt max_retries rest
    | .empty => gemini_generate_loop attempt max_retries rest
    | .exc =>
      if i = max_retries then none else gemini_generate_loop attempt max_retries rest

/-- Embedding of `GeminiService.generate_response`. -/
def GeminiService.generate_response (svc : GeminiService) (attempt : ℕ → GemOutcome)
    (max_retries : ℕ) : Option String :=
  if ¬ svc.is_available then none
  else gemini_generate_loop attempt max_retries (List.range (max_retries + 1))

/-- Python slice `value[:n]` on an attribute value. -/
def AttrVal.slice (n : ℕ) : AttrVal → AttrVal
  | .str v => .str ⟨v.data.take n⟩
  | .list vs => .list (vs.take n)

/-- Python `len(value)` on an attribute value. -/
def AttrVal.len : AttrVal → ℕ
  | .str v => v.length
  | .list vs => vs.length

/-! ### Conversation context (`core/context.py`) -/

/-- One turn record appended to the conversation history. -/
structure HistoryEntry where
  user : String
  timestamp : String
  language : String
  intent : String
  confidence : ℚ
deriving DecidableEq

/-- The `ConversationContext` dataclass. -/
structure ConversationContext where
  user_language : String
  current_topic : Option String
  user_preferences : List (String × String)
  conversation_history : List HistoryEntry
  conversation_memory : List (String × String)
  last_products_discussed : List String
  user_interests : List String
deriving DecidableEq

/-- Dataclass defaults of `ConversationContext`. -/
def ConversationContext.init : ConversationContext :=
  { user_language := "en", current_topic := none, user_preferences := []
    conversation_history := [], conversation_memory := []
    last_products_discussed := [], user_interests := [] }

/-- Embedding of `ConversationContext.get_recent_context`
(`history[-turns:]` when the history is non-empty, for `turns ≥ 1`). -/
def get_recent_context (ctx : ConversationContext) (turns : ℕ) : List HistoryEntry :=
  if ctx.conversation_history ≠ [] then pyTakeLast turns ctx.conversation_history else []

/-! ### Structured prompt (`GeminiService.create_structured_prompt`) -/

def system_prompt_bg : String :=
  "Ти си AI асистент на Първа инвестиционна банка АД (Fibank). \n            Отговаряй на въпросите на клиентите относно кредитни карти и кредити.\n            Бъди професионален, полезен и приветлив. Използвай информацията за продуктите, която ти е предоставена.\n            Винаги предоставяй точна информация и насърчавай клиентите да се свържат с банката за повече детайли."

def system_prompt_en : String :=
  "You are an AI assistant for First Investment Bank AD (Fibank).\n            Answer customer questions about credit cards and loans.\n            Be professional, helpful, and friendly. Use the product information provided to you.\n            Always provide accurate information and encourage customers to contact the bank for more details."

def guidelines_bg : String :=
  "\n            \nУказания:\n- Отговори директно на въпроса на клиента\n- Ако питането е за конкретен продукт, предостави подробна информация\n- Ако не знаеш точен отговор, препоръчай да се свържат с банката\n- Винаги завършвай с информация за контакт: *2265 или 119 клона в България\n- Бъди кратък и ясен в отговорите си"

def guidelines_en : String :=
  "\n            \nGuidelines:\n- Answer the customer's question directly\n- If asking about a specific product, provide detailed information\n- If you don't know the exact answer, recommend contacting the bank\n- Always end with contact information: *2265 or 119 branches in Bulgaria\n- Keep responses concise and clear"

/-- Embedding of `GeminiService.create_structured_prompt`. -/
def create_structured_prompt (user_input : String) (language : String)
    (relevant_products : List (String × Product × ℚ))
    (recent_context : List HistoryEntry) : String :=
  let system_prompt := if language = "bg" then system_prompt_bg else system_prompt_en
  let context_text := if recent_context ≠ [] then
      "\nRecent conversation:\n" ++
        (pyTakeLast 3 recent_context).foldl (fun t turn =>
          if turn.user ≠ "" then t ++ "User: " ++ turn.user ++ "\n" else t) ""
    else ""
  let products_text := if relevant_products ≠ [] then
      (if language = "bg" then "\nРелевантни продукти на Fibank:\n"
       else "\nRelevant Fibank products:\n")
        ++ (relevant_products.take 3).foldl (fun t pr =>
          t ++ "- " ++ pr.2.1.name ++ ": " ++ (pr.2.1.description.slice 200).fstr ++ "...\n") ""
    else ""
  let guidelines := if language = "bg" then guidelines_bg else guidelines_en
  system_prompt ++ "\n        \n" ++ context_text ++ "\n" ++ products_text ++ "\n"
    ++ guidelines ++ "\n\nUser question: " ++ user_input ++ "\n\nResponse:"

/-! ### Chatbot (`core/chatbot.py`) -/

/-- Keyword configuration: brand/loan group → variant → trigger
phrases. -/
abbrev Keywords := List (String × List (String × List String))

/-- The mutable state of a `FibankChatbot` instance after startup. -/
structure ChatbotState where
  knowledge_base : KnowledgeBase
  intent_patterns : List (String × List Pattern)
  keywords : Keywords
  context : ConversationContext
  semantic : SemanticService
  gemini : GeminiService

/-- External collaborator behaviour for one chatbot turn. -/
structure Env where
  langdetect : String → LangDetectResult
  now_iso : String
  encode : String → Vec
  encode_ok : Bool
  similarity : Vec → Vec → ℚ
  gemini_attempt : String → ℕ → GemOutcome

/-- One keyword-list test:
`any(keyword.lower() in user_input_lower for keyword in keywords)`. -/
def keyword_match (user_input_lower : String) (keywords : List String) : Bool :=
  keywords.any (fun keyword => pyContains user_input_lower (pyLower keyword))

/-- Embedding of `FibankChatbot._show_specific_card`. -/
def show_specific_card (st : ChatbotState) (brand card_name : String) : String :=
  let card_data := dictGetD (dictGetD st.knowledge_base.credit_cards brand []) card_name []
  if card_data = [] then
    if st.context.user_language = "bg"
    then Fore.RED ++ "Съжалявам, не намерих информация за " ++ card_name ++ "."
      ++ Style.RESET_ALL
    else Fore.RED ++ "Sorry, I couldn't find information for " ++ card_name ++ "."
      ++ Style.RESET_ALL
  else render_specific_product card_name card_data st.context.user_language

/-- Embedding of `FibankChatbot._show_brand_cards`. -/
def show_brand_cards (st : ChatbotState) (brand : String) : String :=
  let cards := dictGetD st.knowledge_base.credit_cards brand []
  let header := if st.context.user_language = "bg"
    then "Всички налични " ++ brand ++ " карти от Fibank"
    else "All available " ++ brand ++ " cards from Fibank"
  let link_label := if st.context.user_language = "bg"
    then "Повече информация" else "More information"
  render_product_list header cards get_credit_card_summary link_label
    st.context.user_language

/-- Per-card block of `_show_all_credit_cards`. -/
def show_all_credit_cards_card (language : String) (response : String)
    (cn : String × AttrMap) : String :=
  let response := response ++ "🔹 **" ++ cn.1 ++ "**\n"
  let summary := get_credit_card_summary cn.2
  let response := if summary ≠ "" then response ++ "   " ++ summary ++ "\n" else response
  let link := dictGetD cn.2 "link" (.str "")
  if link.truthy then
    (if language = "bg"
     then response ++ "   🔗 Повече информация: " ++ link.fstr ++ "\n\n"
     else response ++ "   🔗 More info: " ++ link.fstr ++ "\n\n")
  else response ++ "\n"

/-- Embedding of `FibankChatbot._show_all_credit_cards`. -/
def show_all_credit_cards (st : ChatbotState) : String :=
  let language := st.context.user_language
  let response := if language = "bg"
    then Fore.BLUE ++ "💳 Всички налични кредитни карти от Fibank:" ++ Style.RESET_ALL ++ "\n\n"
    else Fore.BLUE ++ "💳 All available credit cards from Fibank:" ++ Style.RESET_ALL ++ "\n\n"
  let response := st.knowledge_base.credit_cards.foldl (fun response brand =>
    let response := response ++
      (if language = "bg"
       then Fore.MAGENTA ++ "📱 " ++ brand.1 ++ " карти:" ++ Style.RESET_ALL ++ "\n"
       else Fore.MAGENTA ++ "📱 " ++ brand.1 ++ " cards:" ++ Style.RESET_ALL ++ "\n")
    brand.2.foldl (show_all_credit_cards_card language) response) response
  if language = "bg"
  then response ++ Fore.YELLOW ++ "За повече детайли за конкретна карта, просто я споменете по име."
    ++ Style.RESET_ALL
  else response ++ Fore.YELLOW ++ "For more details about a specific card, just mention it by name."
    ++ Style.RESET_ALL

/-- Embedding of `FibankChatbot.handle_credit_card_inquiry`: specific
Visa variants first, then specific Mastercard variants (with the
`first_lady` special case), then generic brand mentions, and the whole
catalog if both or neither brand is mentioned. -/
def handle_credit_card_inquiry (st : ChatbotState) (user_input : String) : String :=
  let user_input_lower := pyLower user_input
  let visa_keywords := dictGetD st.keywords "visa" []
  match visa_keywords.find? (fun ck => keyword_match user_input_lower ck.2) with
  | some ck => show_specific_card st "Visa" ("Visa " ++ pyTitle ck.1)
  | none =>
    let mastercard_keywords := dictGetD st.keywords "mastercard" []
    match mastercard_keywords.find? (fun ck => keyword_match user_input_lower ck.2) with
    | some ck =>
      if ck.1 = "first_lady"
      then show_specific_card st "Mastercard" "Mastercard Platinum First Lady"
      else show_specific_card st "Mastercard" ("Mastercard " ++ pyTitle ck.1)
    | none =>
      let brand_keywords := dictGetD st.keywords "brands" []
      let visa_mentioned := keyword_match user_input_lower (dictGetD brand_keywords "visa" [])
      let mastercard_mentioned :=
        keyword_match user_input_lower (dictGetD brand_keywords "mastercard" [])
      if visa_mentioned && !mastercard_mentioned then show_brand_cards st "Visa"
      else if mastercard_mentioned && !visa_mentioned then show_brand_cards st "Mastercard"
      else show_all_credit_cards st

/-- The loan-keyword-type → category-name mapping in
`handle_loan_inquiry`. -/
def category_mapping : List (String × String) :=
  [("housing", "Жилищни и ипотечни кредити"),
   ("consumer", "Потребителски кредити"),
   ("overdraft", "Овърдрафт"),
   ("other", "Други кредити")]

/-- Embedding of `FibankChatbot._show_loan_category`. -/
def show_loan_category (st : ChatbotState) (category_name : String) : String :=
  let loans := dictGetD st.knowledge_base.credits category_name []
  let header := if st.context.user_language = "bg"
    then "Продукти от категория \"" ++ category_name ++ "\""
    else "Products from category \"" ++ category_name ++ "\""
  let link_label := if st.context.user_language = "bg"
    then "За повече информация посетете" else "For more information visit"
  render_product_list header loans get_loan_summary link_label st.context.user_language

def loan_tips_bg : String :=
  Fore.YELLOW ++ "За да видите конкретна категория, моля уточнете:\n• \"Жилищни кредити\" или \"ипотечни кредити\"\n• \"Потребителски кредити\"  \n• \"Овърдрафт\"\n• \"Други кредити\"\n\nИли можете да споменете конкретен продукт по име." ++ Style.RESET_ALL

def loan_tips_en : String :=
  Fore.YELLOW ++ "To see a specific category, please specify:\n• \"Housing loans\" or \"mortgage loans\"\n• \"Consumer loans\"\n• \"Overdraft\"\n• \"Other loans\"\n\nOr you can mention a specific product by name." ++ Style.RESET_ALL

/-- Embedding of `FibankChatbot._show_all_loan_categories`. -/
def show_all_loan_categories (st : ChatbotState) : String :=
  let response := render_category_overview st.knowledge_base.credits st.context.user_language
  if st.context.user_language = "bg" then response ++ loan_tips_bg
  else response ++ loan_tips_en

/-- Embedding of `FibankChatbot.handle_loan_inquiry`: collect the
mentioned loan types; exactly one known type shows its category, any
other outcome shows the overview of all categories. -/
def handle_loan_inquiry (st : ChatbotState) (user_input : String) : String :=
  let user_input_lower := pyLower user_input
  let loan_keywords := dictGetD st.keywords "loans" []
  let mentioned_types :=
    (loan_keywords.filter (fun lk => keyword_match user_input_lower lk.2)).map (fun lk => lk.1)
  if mentioned_types.length = 1 then
    match dictGet? category_mapping (mentioned_types.headD "") with
    | some category => show_loan_category st category
    | none => show_all_loan_categories st
  else show_all_loan_categories st

/-- Embedding of `FibankChatbot._generate_error_response`. -/
def generate_error_response (language : String) : String :=
  if language = "bg"
  then Fore.RED ++ "Съжалявам, възникна грешка. Моля, опитайте отново." ++ Style.RESET_ALL
  else Fore.RED ++ "Sorry, an error occurred. Please try again." ++ Style.RESET_ALL

/-- One item of the semantic-fallback response body: name line plus
truncated description.  Appending the `"..."` marker to a list-valued
description longer than 200 raises a `TypeError` (`.error`). -/
def render_fallback_item (i : ℕ) (product : Product) : Except Unit String :=
  let s := toString i ++ ". **" ++ product.name ++ "**\n"
  if product.description.truthy then
    match product.description with
    | .str d =>
      let desc : String := ⟨d.data.take 200⟩
      let desc := if d.length > 200 then desc ++ "..." else desc
      .ok (s ++ "   " ++ desc ++ "\n\n")
    | .list vs =>
      if vs.length > 200 then .error ()
      else .ok (s ++ "   " ++ pyReprStrList (vs.take 200) ++ "\n\n")
  else .ok s

/-- Item loop of `_generate_semantic_fallback_response`
(`enumerate(relevant_products[:3], 1)`). -/
def fallback_items_text (i : ℕ) : List (String × Product × ℚ) → Except Unit String
  | [] => .ok ""
  | pr :: rest =>
    match render_fallback_item i pr.2.1 with
    | .error e => .error e
    | .ok item =>
      match fallback_items_text (i + 1) rest with
      | .error e => .error e
      | .ok restText => .ok (item ++ restText)

/-- Embedding of `FibankChatbot._generate_semantic_fallback_response`:
semantic search with `top_k=5`, a localized no-results message when
nothing qualifies, otherwise up to three rendered products; an
exception while rendering collapses to the generic error response. -/
def generate_semantic_fallback_response (env : Env) (st : ChatbotState)
    (user_input : String) : SemanticService × String :=
  let sr := find_similar_products env.encode env.encode_ok env.similarity
    st.semantic user_input 5 q03
  let sem := sr.1
  let relevant_products := sr.2
  let language := st.context.user_language
  if relevant_products = [] then
    (sem, if language = "bg"
      then Fore.YELLOW ++ "Съжалявам, не намерих релевантна информация за вашия въпрос. Можете да попитате за кредитни карти или кредити." ++ Style.RESET_ALL
      else Fore.YELLOW ++ "Sorry, I couldn't find relevant information for your question. You can ask about credit cards or loans." ++ Style.RESET_ALL)
  else
    let response := if language = "bg"
      then Fore.BLUE ++ "Въз основа на вашия въпрос, ето някои продукти, които биха могли да ви интересуват:" ++ Style.RESET_ALL ++ "\n\n"
      else Fore.BLUE ++ "Based on your question, here are some products that might interest you:" ++ Style.RESET_ALL ++ "\n\n"
    match fallback_items_text 1 (relevant_products.take 3) with
    | .error _ => (sem, generate_error_response language)
    | .ok items =>
      let response := response ++ items
      (sem, if language = "bg"
        then response ++ Fore.YELLOW ++ "Искате ли да научите повече за някой от тези продукти?" ++ Style.RESET_ALL
        else response ++ Fore.YELLOW ++ "Would you like to learn more about any of these products?" ++ Style.RESET_ALL)

/-- Embedding of `FibankChatbot._generate_ai_or_fallback_response`: when
Gemini is available, retrieve the top-3 relevant products, build the
structured prompt and try the generator; any falsy result falls back to
the semantic response. -/
def generate_ai_or_fallback_response (env : Env) (st : ChatbotState)
    (user_input : String) : SemanticService × String :=
  if st.gemini.is_available then
    let sr := find_similar_products env.encode env.encode_ok env.similarity
      st.semantic user_input 3 q03
    let sem := sr.1
    let relevant_products := sr.2
    let recent_context := get_recent_context st.context 3
    let prompt := create_structured_prompt user_input st.context.user_language
      relevant_products recent_context
    let st := { st with semantic := sem }
    match st.gemini.generate_response (env.gemini_attempt prompt) 2 with
    | some ai_response =>
      if ai_response ≠ "" then (sem, ai_response)
      else generate_semantic_fallback_response env st user_input
    | none => generate_semantic_fallback_response env st user_input
  else generate_semantic_fallback_response env st user_input

/-- The blank-input prompt returned by `generate_response` (a fixed
string, the same for every session language). -/
def prompt_enter_text : String :=
  Fore.YELLOW ++ "💡 Please enter your question." ++ Style.RESET_ALL

/-- The contact-information footer appended by `generate_response`. -/
def contact_footer (language : String) : String :=
  if language = "bg"
  then "\n\n" ++ Fore.CYAN ++ "📞 За повече информация: *2265 или посетете някой от нашите 119 клона в България." ++ Style.RESET_ALL
  else "\n\n" ++ Fore.CYAN ++ "📞 For more information: *2265 or visit any of our 119 branches in Bulgaria." ++ Style.RESET_ALL

/-- Body of `FibankChatbot.generate_response` inside its `try`: blank
check, language detection, intent classification, history append,
dispatch and footer.  The only operation that can raise out of the
inner layers is language detection (a non-`LangDetectException`
error); the `.error` payload is the state at the raise point. -/
def generate_response_body (env : Env) (st : ChatbotState) (user_input : String) :
    Except ChatbotState (String × ChatbotState) :=
  if pyBlank user_input then .ok (prompt_enter_text, st)
  else
    match detect_language env.langdetect user_input with
    | .error _ => .error st
    | .ok lang =>
      let st := { st with context := { st.context with user_language := lang } }
      let ic := find_intent st.intent_patterns user_input
      let entry : HistoryEntry :=
        { user := user_input, timestamp := env.now_iso,
          language := st.context.user_language, intent := ic.1, confidence := ic.2 }
      let st := { st with context := { st.context with
        conversation_history := st.context.conversation_history ++ [entry] } }
      let sr :=
        if ic.1 = "credit_cards" then (st.semantic, handle_credit_card_inquiry st user_input)
        else if ic.1 = "loans" then (st.semantic, handle_loan_inquiry st user_input)
        else generate_ai_or_fallback_response env st user_input
      let st := { st with semantic := sr.1 }
      .ok (sr.2 ++ contact_footer st.context.user_language, st)

/-- Embedding of `FibankChatbot.generate_response`: the body inside the
`try`, with the catch-all `except` converting any escaped error into
the localized generic error response. -/
def generate_response (env : Env) (st : ChatbotState) (user_input : String) :
    String × ChatbotState :=
  match generate_response_body env st user_input with
  | .ok result => result
  | .error st' => (generate_error_response st'.context.user_language, st')

/-! ### Claim-side definitions

Definitions written from the specification's words, for comparison with
the embeddings above. -/

/-- The loan summary as the claim words it: the first two non-empty,
non-bullet lines of the whole description (joined as the code joins,
with newline + indent). -/
def loan_summary_claimed (loan_info : AttrMap) : String :=
  match dictGetD loan_info "информация за продукта" (.str "") with
  | .list _ => ""
  | .str info =>
    if info = "" then ""
    else
      let good := ((pySplitChar '\n' info).map pyStrip).filter
        (fun line => decide (line ≠ "" ∧ line.data.head? ≠ some '-'))
      pyJoin "\n   " (good.take 2)

/-- The loan summary as the code actually computes it, worded from the
amended claim: of the first two lines of the description, those that are
non-empty after stripping and do not start with `-`, joined with
newline + indent (empty when the field is absent, empty or not a
string). -/
def loan_summary_amended (loan_info : AttrMap) : String :=
  match dictGetD loan_info "информация за продукта" (.str "") with
  | .list _ => ""
  | .str info =>
    pyJoin "\n   " ((((pySplitChar '\n' info).take 2).map pyStrip).filter
      (fun line => decide (line ≠ "" ∧ line.data.head? ≠ some '-')))

/-- Invariant of the embedding index (spec §3): the parallel arrays are
aligned and any built matrix has one vector per key. -/
def SemInvariant (s : SemanticService) : Prop :=
  s.product_keys.length = s.product_texts.length ∧
  ∀ e, s.embeddings = some e → e.length = s.product_keys.length

/-! ### Concrete sample data for witnesses and counterexamples -/

def loanSummaryCounterexampleInput : AttrMap :=
  [("информация за продукта", .str "Жилищен кредит\n\nИзгодни условия")]

def witnessCardPattern : Pattern := fun s => pyContains s "карта"

def witnessLoanPattern : Pattern := fun s => pyContains s "кредит"

def witnessPatterns : List (String × List Pattern) :=
  [("credit_cards", [witnessCardPattern]), ("loans", [witnessLoanPattern])]

def sampleCards : Dataset :=
  [("Visa",
    [("„Visa Gold\"",
      [("информация за продукта", .str "Лимит: 5000 лв; Годишна такса: 50 лв"),
       ("link", .str "https://fibank.bg/visa-gold")])])]

def sampleCredits : Dataset :=
  [("Потребителски кредити",
    [("Visa Gold", [("информация за продукта", .str "Потребителски кредит")])])]

def sampleCollisionEntry : RawEntry :=
  { kind := "credit", category := "Потребителски кредити", name := "Visa Gold",
    attrs := [("информация за продукта", .str "Потребителски кредит")] }

def sampleProduct : Product :=
  productEntry "credit" "Потребителски кредити" "Бърз кредит"
    [("информация за продукта", .str "Бърз потребителски кредит")]

def sampleKB : KnowledgeBase :=
  { products := [("Бърз кредит", sampleProduct)]
    credit_cards := sampleCards
    credits := sampleCredits }

def sampleSemantic : SemanticService :=
  { knowledge_base := some sampleKB, product_texts := [], product_keys := []
    embeddings := none }

def sampleState : ChatbotState :=
  { knowledge_base := sampleKB
    intent_patterns := []
    keywords := []
    context := ConversationContext.init
    semantic := sampleSemantic
    gemini := { is_available := false } }

def bgSampleState : ChatbotState :=
  { sampleState with context := { sampleState.context with user_language := "bg" } }

def sampleEnv : Env :=
  { langdetect := fun _ => .detected "en"
    now_iso := "2024-01-01T00:00:00"
    encode := fun _ => [1]
    encode_ok := true
    similarity := fun _ _ => 1
    gemini_attempt := fun _ _ => .empty }

def raiseEnv : Env := { sampleEnv with langdetect := fun _ => .raised }

def tieProductA : Product := productEntry "credit" "Потребителски кредити" "a" []

def tieProductB : Product := productEntry "credit" "Потребителски кредити" "b" []

def tieKB : KnowledgeBase :=
  { products := [("a", tieProductA), ("b", tieProductB)], credit_cards := [], credits := [] }

def tieSemantic : SemanticService :=
  { knowledge_base := some tieKB, product_texts := ["a", "b"], product_keys := ["a", "b"]
    embeddings := some [[1], [1]] }

def semOpsWitness : List SemOp := [.setKB tieKB, .build true]

def semOpsWitnessState : SemanticService :=
  semOpsWitness.foldl (SemOp.apply (fun _ => [1]) (fun _ _ => 1)) SemanticService.init

/-! ### Dictionary lemmas -/

/-! ### Basic facts about the string primitives -/

theorem pyStripL_eq_nil_iff (l : List Char) :
    pyStripL l = [] ↔ ∀ c ∈ l, c.isWhitespace := by
  unfold pyStripL
  constructor
  · intro h c hc
    rw [List.reverse_eq_nil_iff, List.dropWhile_eq_nil_iff] at h
    by_contra hw
    have hmem : c ∈ l.dropWhile Char.isWhitespace := by
      have hsplit := List.takeWhile_append_dropWhile (p := Char.isWhitespace) (l := l)
      rcases List.mem_append.mp (hsplit ▸ hc) with h1 | h1
      · exact absurd (List.mem_takeWhile_imp h1) hw
      · exact h1
    exact hw (h c (List.mem_reverse.mpr hmem))
  · intro h
    rw [List.dropWhile_eq_nil_iff.mpr (fun c hc => h c hc)]
    simp

theorem dictHas_cons {β : Type} (p : String × β) (tl : List (String × β)) (k : String) :
    dictHas (p :: tl) k = (decide (p.1 = k) || dictHas tl k) := by
  simp [dictHas]

theorem dictGet?_map_overwrite {β : Type} (d : List (String × β)) (k k' : String) (v : β) :
    dictGet? (d.map (fun p => if p.1 = k then (k, v) else p)) k' =
      if k' = k then (if dictHas d k then some v else none)
      else dictGet? d k' := by
  induction d with
  | nil => by_cases h : k' = k <;> simp [dictGet?, dictHas, h]
  | cons hd tl ih =>
    by_cases hhd : hd.1 = k
    · by_cases hk : k' = k
      · subst hk
        simp [dictGet?, dictHas, hhd]
      · have hne : ¬ k = k' := fun h => hk h.symm
        have hh2 : ¬ hd.1 = k' := by rw [hhd]; exact hne
        simp [dictGet?, dictHas, hhd, hk, hne, hh2, ih]
    · by_cases hh2 : hd.1 = k'
      · have hk : ¬ k' = k := fun h => hhd (by rw [hh2, h])
        simp [dictGet?, dictHas, hhd, hh2, hk]
      · simp [dictGet?, dictHas_cons, hhd, hh2, ih]

theorem dictGet?_eq_none_of_not_mem {β : Type} (d : List (String × β)) (k : String)
    (h : dictHas d k = false) : dictGet? d k = none := by
  induction d with
  | nil => rfl
  | cons hd tl ih =>
    simp only [dictHas, List.any_cons, Bool.or_eq_false_iff] at h
    have h1 : ¬ hd.1 = k := by simpa using h.1
    have h2 : dictHas tl k = false := h.2
    simp [dictGet?, h1, ih h2]

theorem dictGet?_append {β : Type} (d e : List (String × β)) (k : String) :
    dictGet? (d ++ e) k = (dictGet? d k).or (dictGet? e k) := by
  induction d with
  | nil => simp [dictGet?, Option.none_or]
  | cons hd tl ih =>
    by_cases h : hd.1 = k <;> simp [dictGet?, h, ih, Option.or]

theorem dictGet?_dictInsert {β : Type} (d : List (String × β)) (k k' : String) (v : β) :
    dictGet? (dictInsert d k v) k' = if k' = k then some v else dictGet? d k' := by
  unfold dictInsert
  by_cases hmem : dictHas d k
  · rw [if_pos hmem, dictGet?_map_overwrite, hmem]
    by_cases h : k' = k <;> simp [h]
  · rw [if_neg hmem]
    rw [dictGet?_append]
    by_cases hk : k' = k
    · subst hk
      rw [dictGet?_eq_none_of_not_mem d k' (Bool.eq_false_iff.mpr hmem)]
      simp [dictGet?]
    · have hne : ¬ k = k' := fun h => hk h.symm
      have h1 : dictGet? [(k, v)] k' = none := by simp [dictGet?, hne]
      rw [h1, Option.or_none]
      simp [hk]

theorem foldl_insertEntry_lookup (es : List RawEntry) (acc : List (String × Product))
    (k : String) :
    dictGet? (es.foldl insertEntry acc) k =
      ((es.reverse.find? (fun e => decide (normalizeKey e.name = k))).map
        RawEntry.product).or (dictGet? acc k) := by
  induction es generalizing acc with
  | nil => simp
  | cons e es ih =>
    rw [List.foldl_cons, ih, List.reverse_cons, List.find?_append]
    cases hfind : es.reverse.find? (fun e => decide (normalizeKey e.name = k)) with
    | some e' => rfl
    | none =>
      show dictGet? (insertEntry acc e) k =
        ((List.find? (fun e => decide (normalizeKey e.name = k)) [e]).map
          RawEntry.product).or (dictGet? acc k)
      unfold insertEntry
      rw [dictGet?_dictInsert]
      by_cases hk : k = normalizeKey e.name
      · have hk' : normalizeKey e.name = k := hk.symm
        rw [if_pos hk, List.find?_cons_of_pos _ (by simp [hk'])]
        rfl
      · have hk' : ¬ normalizeKey e.name = k := fun h => hk h.symm
        rw [if_neg hk, List.find?_cons_of_neg _ (by simp [hk']), List.find?_nil]
        rfl


theorem combine_products_eq_foldl (credit_cards credits : Dataset) :
    combine_products credit_cards credits =
      (allEntries credit_cards credits).foldl insertEntry [] := by
  have flat : ∀ (kind : String) (ds : Dataset) (acc : List (String × Product)),
      (flattenDataset kind ds).foldl insertEntry acc =
        ds.foldl (fun acc ct =>
          ct.2.foldl (fun acc cn =>
            dictInsert acc (normalizeKey cn.1) (productEntry kind ct.1 cn.1 cn.2)) acc) acc := by
    intro kind ds
    induction ds with
    | nil => intro acc; simp [flattenDataset]
    | cons ct ds ih =>
      intro acc
      simp only [flattenDataset, List.flatMap_cons, List.foldl_append, List.foldl_cons,
        List.foldl_map] at *
      rw [ih]
      rfl
  unfold combine_products allEntries
  rw [List.foldl_append, flat, flat]

theorem mem_flattenDataset_kind {e : RawEntry} {kind : String} {ds : Dataset}
    (h : e ∈ flattenDataset kind ds) : e.kind = kind := by
  unfold flattenDataset at h
  rw [List.mem_flatMap] at h
  obtain ⟨ct, _, he⟩ := h
  rw [List.mem_map] at he
  obtain ⟨cn, _, rfl⟩ := he
  rfl

theorem q03_eq : q03 = 0.3 := by
  rw [show (0.3 : ℚ) = 3 / 10 by norm_num]
  rw [show (q03 : ℚ) = 3 / 10 from by rw [q03, Rat.mk'_eq_divInt]; norm_num [Rat.divInt_eq_div]]

/-! ### Loan summary (claim C7) -/

/-- C7 counterexample: on a description whose second line is blank and
whose third line is informative, `get_loan_summary` returns only the
first line, while the claim's reading (first two non-empty non-bullet
lines of the whole description) would also return the third. -/
theorem get_loan_summary_counterexample :
    get_loan_summary loanSummaryCounterexampleInput
      ≠ loan_summary_claimed loanSummaryCounterexampleInput := by decide

/-- C7 (amended): for every loan attribute mapping, the loan summary
extractor returns those of the first two lines of the
`информация за продукта` description that are non-empty after stripping
and do not start with the bullet marker `-`, joined by newline plus
indent, and the empty string when that field is absent or empty. -/
theorem get_loan_summary_spec (loan_info : AttrMap) :
    get_loan_summary loan_info = loan_summary_amended loan_info := by
  unfold get_loan_summary loan_summary_amended
  cases h : dictGetD loan_info "информация за продукта" (.str "") with
  | list vs => rfl
  | str info =>
    by_cases hinfo : info = ""
    · subst hinfo
      decide
    · simp [hinfo]

/-! ### Language detection (claim C4) -/

theorem pyCharLower_bulgarian_not_whitespace (c : Char)
    (h : pyCharLower c ∈ bulgarian_chars) : c.isWhitespace = false := by
  by_contra hw
  have hw' : c.isWhitespace = true := by simpa using hw
  simp only [Char.isWhitespace, Bool.or_eq_true, decide_eq_true_eq] at hw'
  rcases hw' with ((h1 | h1) | h1) | h1 <;> subst h1 <;> revert h <;> decide

/-- C4 counterexample: the Russian letter `ы` is Cyrillic but not in the
Bulgarian alphabet subset; when the статистical detector answers `ru`,
`detect_language` returns `en`. -/
theorem detect_language_cyrillic_counterexample :
    ¬ (∀ (detect : String → LangDetectResult) (text : String),
        (∃ c ∈ text.data, isCyrillicChar c = true) →
        detect_language detect text = .ok "bg") := by
  intro h
  have hres := h (fun _ => .detected "ru") "ы" ⟨'ы', by decide, by decide⟩
  have heval : detect_language (fun _ => .detected "ru") "ы" = .ok "en" := by decide
  rw [heval] at hres
  exact absurd hres (by decide)

/-- C4 (amended): for every input containing at least one character
whose lowercase form lies in the Bulgarian Cyrillic alphabet subset,
`detect_language` returns `bg`, whatever the statistical detector
does. -/
theorem detect_language_bulgarian_chars (detect : String → LangDetectResult)
    (text : String) (h : ∃ c ∈ text.data, pyCharLower c ∈ bulgarian_chars) :
    detect_language detect text = .ok "bg" := by
  obtain ⟨c, hc, hlc⟩ := h
  have hw := pyCharLower_bulgarian_not_whitespace c hlc
  have hblank : pyBlank text = false := by
    have e1 : (text == "") = false := by
      rw [beq_eq_false_iff_ne]
      intro h0
      rw [h0] at hc
      exact absurd hc (List.not_mem_nil c)
    have e2 : (pyStrip text == "") = false := by
      rw [beq_eq_false_iff_ne]
      intro h0
      have hdata : pyStripL text.data = [] := congrArg String.data h0
      have := (pyStripL_eq_nil_iff text.data).mp hdata c hc
      rw [hw] at this
      exact Bool.noConfusion this
    unfold pyBlank
    rw [e1, e2]
    rfl
  have hany : (pyLower text).data.any (fun c => bulgarian_chars.contains c) = true := by
    rw [List.any_eq_true]
    refine ⟨pyCharLower c, ?_, ?_⟩
    · show pyCharLower c ∈ (pyLower text).data
      unfold pyLower
      exact List.mem_map_of_mem pyCharLower hc
    · simpa using hlc
  unfold detect_language
  rw [hblank]
  simp only [Bool.false_eq_true, if_false]
  rw [hany]
  rfl

/-- C4 witness: an input with an uppercase Bulgarian letter is detected
as Bulgarian even if the statistical detector would say otherwise. -/
theorem detect_language_bulgarian_chars_witness :
    detect_language (fun _ => .detected "ru") "Кредит" = .ok "bg" :=
  detect_language_bulgarian_chars _ _ ⟨'К', by decide, by decide⟩

/-! ### Intent classification (claim C3) -/

theorem find_intent_inner_no_match (intent : String) (ps : List Pattern)
    (tl : String) (best : String × ℚ) (h : ∀ p ∈ ps, p tl = false) :
    find_intent_inner intent ps tl best = best := by
  induction ps with
  | nil => rfl
  | cons p ps ih =>
    have hp := h p (List.mem_cons_self p ps)
    simp only [find_intent_inner, hp, Bool.false_eq_true, if_false]
    exact ih (fun q hq => h q (List.mem_cons_of_mem p hq))

theorem find_intent_inner_stuck (intent : String) (ps : List Pattern)
    (tl : String) (best : String × ℚ) (h : best.2 = 0.8) :
    find_intent_inner intent ps tl best = best := by
  induction ps with
  | nil => rfl
  | cons p ps ih =>
    simp only [find_intent_inner]
    cases hp : p tl with
    | true => simpa [h] using ih
    | false => simpa using ih

theorem find_intent_inner_first_match (intent : String) (ps : List Pattern)
    (tl : String) (h : ∃ p ∈ ps, p tl = true) :
    find_intent_inner intent ps tl ("general", 0) = (intent, 0.8) := by
  induction ps with
  | nil =>
    obtain ⟨p, hp, _⟩ := h
    exact absurd hp (List.not_mem_nil p)
  | cons p ps ih =>
    cases hpt : p tl with
    | true =>
      simp only [find_intent_inner, hpt, if_true]
      rw [if_pos (by norm_num)]
    | false =>
      simp only [find_intent_inner, hpt, Bool.false_eq_true, if_false]
      apply ih
      obtain ⟨q, hq, hqt⟩ := h
      rcases List.mem_cons.mp hq with rfl | h1
      · rw [hpt] at hqt
        exact absurd hqt (by simp)
      · exact ⟨q, h1, hqt⟩

theorem find_intent_foldl_no_match (cfg : List (String × List Pattern)) (tl : String)
    (b : String × ℚ) (h : ∀ ip ∈ cfg, ∀ p ∈ ip.2, p tl = false) :
    cfg.foldl (fun best ip => find_intent_inner ip.1 ip.2 tl best) b = b := by
  induction cfg generalizing b with
  | nil => rfl
  | cons ip cfg ih =>
    rw [List.foldl_cons, find_intent_inner_no_match _ _ _ _ (h ip (by simp))]
    exact ih b (fun jp hjp q hq => h jp (by simp [hjp]) q hq)

theorem find_intent_foldl_stuck (cfg : List (String × List Pattern)) (tl : String)
    (b : String × ℚ) (h : b.2 = 0.8) :
    cfg.foldl (fun best ip => find_intent_inner ip.1 ip.2 tl best) b = b := by
  induction cfg with
  | nil => rfl
  | cons ip cfg ih =>
    rw [List.foldl_cons, find_intent_inner_stuck _ _ _ _ h]
    exact ih

/-- C3: `find_intent` returns `("general", 0.0)` when no configured
pattern matches the lowercased input, and otherwise the earliest intent
category in configuration iteration order with at least one matching
pattern, with fixed confidence 0.8. -/
theorem find_intent_spec (intent_patterns : List (String × List Pattern)) (text : String) :
    ((∀ ip ∈ intent_patterns, ∀ p ∈ ip.2, p (pyLower text) = false) →
      find_intent intent_patterns text = ("general", 0)) ∧
    (∀ pre intent ps post,
      intent_patterns = pre ++ (intent, ps) :: post →
      (∀ ip ∈ pre, ∀ p ∈ ip.2, p (pyLower text) = false) →
      (∃ p ∈ ps, p (pyLower text) = true) →
      find_intent intent_patterns text = (intent, 0.8)) := by
  constructor
  · intro h
    exact find_intent_foldl_no_match _ _ _ h
  · intro pre intent ps post hcfg hpre hmatch
    unfold find_intent
    subst hcfg
    rw [List.foldl_append, find_intent_foldl_no_match pre _ _ hpre, List.foldl_cons,
      find_intent_inner_first_match intent ps _ hmatch]
    exact find_intent_foldl_stuck post _ _ rfl

/-- C3 witness: with a credit-cards category listed before a loans
category, an input matching only the loans patterns classifies as
`loans` with confidence 0.8. -/
theorem find_intent_spec_witness :
    find_intent witnessPatterns "Какви кредити предлагате?" = ("loans", 0.8) := by
  refine (find_intent_spec witnessPatterns "Какви кредити предлагате?").2
    [("credit_cards", [witnessCardPattern])] "loans" [witnessLoanPattern] [] rfl ?_ ?_
  · intro ip hip p hp
    rw [List.mem_singleton] at hip
    subst hip
    rw [List.mem_singleton] at hp
    subst hp
    decide
  · exact ⟨witnessLoanPattern, List.mem_singleton.mpr rfl, by decide⟩

/-! ### Catalog merge (claim C8) -/

/-- C8: the catalog build keys every product by its quote-stripped name;
lookups return the product record of the last processed source entry
with that normalized name (cards first, then loans, so on a collision
the loans dataset wins); every stored product carries the source kind
and the product-information description (empty when absent). -/
theorem combine_products_spec (credit_cards credits : Dataset) :
    (∀ k, dictGet? (combine_products credit_cards credits) k =
      ((allEntries credit_cards credits).reverse.find?
        (fun e => decide (normalizeKey e.name = k))).map RawEntry.product) ∧
    (∀ k p, dictGet? (combine_products credit_cards credits) k = some p →
      k = normalizeKey p.name ∧ (p.type' = "credit_card" ∨ p.type' = "credit") ∧
      p.description = dictGetD p.raw_data "информация за продукта" (.str "")) := by
  have hmain : ∀ k, dictGet? (combine_products credit_cards credits) k =
      ((allEntries credit_cards credits).reverse.find?
        (fun e => decide (normalizeKey e.name = k))).map RawEntry.product := by
    intro k
    rw [combine_products_eq_foldl, foldl_insertEntry_lookup]
    rw [show dictGet? ([] : List (String × Product)) k = none from rfl, Option.or_none]
  refine ⟨hmain, ?_⟩
  intro k p hp
  rw [hmain k] at hp
  cases hfind : (allEntries credit_cards credits).reverse.find?
      (fun e => decide (normalizeKey e.name = k)) with
  | none => rw [hfind] at hp; exact absurd hp (by simp)
  | some e =>
    rw [hfind] at hp
    have hep : e.product = p := by
      have := Option.map_eq_some'.mp hp
      obtain ⟨e', he', hpe⟩ := this
      obtain rfl : e' = e := by injection he' with h; exact h.symm
      exact hpe
    have hkey : normalizeKey e.name = k := by
      have := List.find?_some hfind
      simpa using this
    have hmem : e ∈ allEntries credit_cards credits :=
      List.mem_reverse.mp (List.mem_of_find?_eq_some hfind)
    have hkind : e.kind = "credit_card" ∨ e.kind = "credit" := by
      unfold allEntries at hmem
      rcases List.mem_append.mp hmem with h1 | h1
      · exact Or.inl (mem_flattenDataset_kind h1)
      · exact Or.inr (mem_flattenDataset_kind h1)
    refine ⟨?_, ?_, ?_⟩
    · rw [← hep]; exact hkey.symm
    · rw [← hep]; exact hkind
    · rw [← hep]; rfl

/-- C8 witness: the loans entry `Visa Gold` collides with the card
`„Visa Gold"` after quote stripping, and the stored product is the later
(credit) one. -/
theorem combine_products_spec_witness :
    ("Visa Gold" : String) = normalizeKey sampleCollisionEntry.product.name ∧
    (sampleCollisionEntry.product.type' = "credit_card" ∨
      sampleCollisionEntry.product.type' = "credit") ∧
    sampleCollisionEntry.product.description
      = dictGetD sampleCollisionEntry.product.raw_data "информация за продукта" (.str "") :=
  (combine_products_spec sampleCards sampleCredits).2 "Visa Gold"
    sampleCollisionEntry.product (by decide)

/-! ### Embedding-index invariant (claim C9) -/

theorem prepare_product_texts_state (s : SemanticService)
    (h : s.product_keys.length = s.product_texts.length) :
    (prepare_product_texts s).product_keys.length
      = (prepare_product_texts s).product_texts.length ∧
    (prepare_product_texts s).embeddings = s.embeddings := by
  unfold prepare_product_texts
  split
  · exact ⟨h, rfl⟩
  · split
    · exact ⟨h, rfl⟩
    · split
      · exact ⟨h, rfl⟩
      · exact ⟨by simp, rfl⟩

theorem build_embeddings_invariant (encode : String → Vec) (encode_ok : Bool)
    (s : SemanticService) (h : SemInvariant s) :
    SemInvariant (build_embeddings encode encode_ok s).1 := by
  unfold build_embeddings
  cases hemb : s.embeddings with
  | some e => exact h
  | none =>
    obtain ⟨hp1, hp2⟩ := prepare_product_texts_state s h.1
    by_cases ht : (prepare_product_texts s).product_texts = []
    · rw [if_pos ht]
      refine ⟨hp1, fun e he => ?_⟩
      rw [hp2, hemb] at he
      cases he
    · rw [if_neg ht]
      cases encode_ok with
      | true =>
        rw [if_pos rfl]
        refine ⟨hp1, fun e he => ?_⟩
        have : (prepare_product_texts s).product_texts.map encode = e :=
          Option.some.inj he
        rw [← this, List.length_map, hp1]
      | false =>
        rw [if_neg (by simp)]
        refine ⟨hp1, fun e he => ?_⟩
        rw [hp2, hemb] at he
        cases he

theorem find_similar_products_state (encode : String → Vec) (encode_ok : Bool)
    (similarity : Vec → Vec → ℚ) (s : SemanticService) (query : String)
    (top_k : ℕ) (threshold : ℚ) :
    (find_similar_products encode encode_ok similarity s query top_k threshold).1
      = (build_embeddings encode encode_ok s).1 := by
  unfold find_similar_products
  dsimp only
  split
  · rfl
  · split
    · rfl
    · split <;> rfl

/-- C9: starting from the freshly constructed service, any sequence of
`set_knowledge_base`, `build_embeddings` and `find_similar_products`
calls keeps the parallel key/text arrays at equal length, with any built
embedding matrix holding one vector per key; and replacing the knowledge
base clears the cached keys, texts and embeddings. -/
theorem semantic_index_invariant (encode : String → Vec) (similarity : Vec → Vec → ℚ)
    (ops : List SemOp) :
    SemInvariant (ops.foldl (SemOp.apply encode similarity) SemanticService.init) ∧
    (∀ (s : SemanticService) (kb : KnowledgeBase),
      (set_knowledge_base s kb).product_keys = [] ∧
      (set_knowledge_base s kb).product_texts = [] ∧
      (set_knowledge_base s kb).embeddings = none) := by
  constructor
  · have hstep : ∀ (s : SemanticService) (op : SemOp), SemInvariant s →
        SemInvariant (SemOp.apply encode similarity s op) := by
      intro s op h
      cases op with
      | setKB kb => exact ⟨rfl, fun e he => by cases he⟩
      | build ok => exact build_embeddings_invariant encode ok s h
      | findSim ok q k t =>
        show SemInvariant (find_similar_products encode ok similarity s q k t).1
        rw [find_similar_products_state]
        exact build_embeddings_invariant encode ok s h
    have hfold : ∀ (l : List SemOp) (s : SemanticService), SemInvariant s →
        SemInvariant (l.foldl (SemOp.apply encode similarity) s) := by
      intro l
      induction l with
      | nil => intro s hs; exact hs
      | cons op l ih => intro s hs; exact ih _ (hstep s op hs)
    exact hfold ops SemanticService.init ⟨rfl, fun e he => by cases he⟩
  · intro s kb
    exact ⟨rfl, rfl, rfl⟩

/-- C9 witness: loading a knowledge base and building embeddings yields
a matrix with exactly one vector per cached key. -/
theorem semantic_index_invariant_witness :
    ([[1], [1]] : List Vec).length = semOpsWitnessState.product_keys.length :=
  (semantic_index_invariant (fun _ => [1]) (fun _ _ => 1) semOpsWitness).1.2
    [[1], [1]] (by decide)

/-! ### Semantic retrieval contract (claim C2) -/

theorem collect_similar_spec (product_keys : List String)
    (lookup : String → Option Product) (sims : List ℚ) (t : ℚ) :
    ∀ (idxs : List ℕ) (rs : List (String × Product × ℚ)),
      collect_similar product_keys lookup sims t idxs = some rs →
      rs.length ≤ idxs.length ∧
      (∀ r ∈ rs, t < r.2.2 ∧ ∃ i ∈ idxs, sims[i]? = some r.2.2) ∧
      (List.Pairwise (fun i j => simAt sims j ≤ simAt sims i) idxs →
        List.Pairwise (fun (a b : String × Product × ℚ) => b.2.2 ≤ a.2.2) rs) := by
  intro idxs
  induction idxs with
  | nil =>
    intro rs h
    obtain rfl : ([] : List (String × Product × ℚ)) = rs := Option.some.inj h
    exact ⟨Nat.le_refl 0, by simp, by simp⟩
  | cons i idxs ih =>
    intro rs h
    simp only [collect_similar] at h
    cases hs : sims[i]? with
    | none => rw [hs] at h; cases h
    | some sim =>
      rw [hs] at h
      dsimp only at h
      by_cases hth : sim > t
      · rw [if_pos hth] at h
        cases hk : product_keys[i]? with
        | none => rw [hk] at h; cases h
        | some key =>
          rw [hk] at h
          dsimp only at h
          cases hl : lookup key with
          | none => rw [hl] at h; cases h
          | some pd =>
            rw [hl] at h
            dsimp only at h
            cases hrec : collect_similar product_keys lookup sims t idxs with
            | none => rw [hrec] at h; cases h
            | some rs' =>
              rw [hrec] at h
              obtain rfl : (key, pd, sim) :: rs' = rs := Option.some.inj h
              obtain ⟨ihlen, ihmem, ihpair⟩ := ih rs' hrec
              refine ⟨Nat.succ_le_succ ihlen, ?_, ?_⟩
              · intro r hr
                rcases List.mem_cons.mp hr with rfl | hr'
                · exact ⟨hth, i, List.mem_cons_self i idxs, hs⟩
                · obtain ⟨h1, j, hj, hj2⟩ := ihmem r hr'
                  exact ⟨h1, j, List.mem_cons_of_mem i hj, hj2⟩
              · intro hp
                rw [List.pairwise_cons] at hp ⊢
                obtain ⟨hhead, htail⟩ := hp
                refine ⟨?_, ihpair htail⟩
                intro b hb
                obtain ⟨_, j, hj, hj2⟩ := ihmem b hb
                have hR := hhead j hj
                show b.2.2 ≤ sim
                have e1 : simAt sims j = b.2.2 := by unfold simAt; rw [hj2]; rfl
                have e2 : simAt sims i = sim := by unfold simAt; rw [hs]; rfl
                rw [e1, e2] at hR
                exact hR
      · rw [if_neg hth] at h
        obtain ⟨ihlen, ihmem, ihpair⟩ := ih rs h
        refine ⟨Nat.le_succ_of_le ihlen, ?_, ?_⟩
        · intro r hr
          obtain ⟨h1, j, hj, hj2⟩ := ihmem r hr
          exact ⟨h1, j, List.mem_cons_of_mem i hj, hj2⟩
        · intro hp
          exact ihpair (List.pairwise_cons.mp hp).2

/-- C2 (amended): every `find_similar_products` result has length at
most `top_k`, every returned score is strictly above the threshold, and
the scores are in non-increasing (descending, ties allowed) order. -/
theorem find_similar_products_spec (encode : String → Vec) (encode_ok : Bool)
    (similarity : Vec → Vec → ℚ) (s : SemanticService) (query : String)
    (top_k : ℕ) (threshold : ℚ) :
    (find_similar_products encode encode_ok similarity s query top_k threshold).2.length
        ≤ top_k ∧
    (∀ r ∈ (find_similar_products encode encode_ok similarity s query top_k threshold).2,
      threshold < r.2.2) ∧
    List.Pairwise (fun (a b : String × Product × ℚ) => b.2.2 ≤ a.2.2)
      (find_similar_products encode encode_ok similarity s query top_k threshold).2 := by
  unfold find_similar_products
  dsimp only
  by_cases h0 : (build_embeddings encode encode_ok s).2.length = 0
  · rw [if_pos h0]
    exact ⟨by simp, by simp, by simp⟩
  · rw [if_neg h0]
    by_cases hok : encode_ok = true
    · rw [if_neg (by simp [hok])]
      cases hcol : collect_similar (build_embeddings encode encode_ok s).1.product_keys
          (fun k =>
            match (build_embeddings encode encode_ok s).1.knowledge_base with
            | none => none
            | some kb => dictGet? kb.products k)
          ((build_embeddings encode encode_ok s).2.map
            (fun e => similarity (encode query) e))
          threshold
          ((argsortDesc ((build_embeddings encode encode_ok s).2.map
            (fun e => similarity (encode query) e))).take top_k) with
      | none => simp only [hcol]; exact ⟨by simp, by simp, by simp⟩
      | some rs =>
        simp only [hcol]
        obtain ⟨hlen, hmem, hpair⟩ := collect_similar_spec _ _ _ _ _ rs hcol
        refine ⟨le_trans hlen (List.length_take_le _ _), ?_, ?_⟩
        · intro r hr
          exact (hmem r hr).1
        · apply hpair
          apply List.Pairwise.sublist (List.take_sublist _ _)
          unfold argsortDesc
          haveI : IsTotal ℕ (fun i j =>
              simAt ((build_embeddings encode encode_ok s).2.map
                (fun e => similarity (encode query) e)) j ≤
              simAt ((build_embeddings encode encode_ok s).2.map
                (fun e => similarity (encode query) e)) i) :=
            ⟨fun a b => le_total _ _⟩
          haveI : IsTrans ℕ (fun i j =>
              simAt ((build_embeddings encode encode_ok s).2.map
                (fun e => similarity (encode query) e)) j ≤
              simAt ((build_embeddings encode encode_ok s).2.map
                (fun e => similarity (encode query) e)) i) :=
            ⟨fun a b c h1 h2 => le_trans h2 h1⟩
          exact List.sorted_insertionSort _ _
    · rw [if_pos (by simpa using hok)]
      exact ⟨by simp, by simp, by simp⟩

/-- C2 witness: on a two-product catalog both results clear the
threshold. -/
theorem find_similar_products_spec_witness :
    q03 < (("a", tieProductA, (1 : ℚ)) : String × Product × ℚ).2.2 :=
  (find_similar_products_spec (fun _ => [1]) true (fun _ _ => 1) tieSemantic
    "въпрос" 3 q03).2.1 ("a", tieProductA, 1) (by decide)

/-- C2 counterexample: with two products at identical similarity the
returned scores tie, so the result is not sorted strictly descending. -/
theorem find_similar_strict_sort_counterexample :
    ¬ List.Pairwise (fun (a b : String × Product × ℚ) => a.2.2 > b.2.2)
      ((find_similar_products (fun _ => [1]) true (fun _ _ => 1) tieSemantic
        "въпрос" 3 q03).2) := by
  decide

/-! ### Blank input (claim C5) -/

/-- C5 (amended): for every blank input, `generate_response` returns the
fixed (English) prompt-to-enter-text message — the same string whatever
the session language — and leaves the chatbot state, in particular the
conversation history, unchanged. -/
theorem generate_response_blank_input (env : Env) (st : ChatbotState)
    (user_input : String) (h : pyBlank user_input = true) :
    generate_response env st user_input = (prompt_enter_text, st) := by
  unfold generate_response generate_response_body
  rw [h]
  rfl

/-- C5 witness: a whitespace-only input gets the prompt message and no
state change. -/
theorem generate_response_blank_input_witness :
    generate_response sampleEnv sampleState " " = (prompt_enter_text, sampleState) :=
  generate_response_blank_input sampleEnv sampleState " " (by decide)

/-- C5 counterexample: no localized message (one that differs between a
Bulgarian and an English session) describes the blank-input response,
because the code returns one fixed string for both session languages. -/
theorem blank_prompt_not_localized :
    ¬ ∃ m : String → String, m "bg" ≠ m "en" ∧
      ∀ (env : Env) (st : ChatbotState) (input : String), pyBlank input = true →
        (generate_response env st input).1 = m st.context.user_language := by
  rintro ⟨m, hne, h⟩
  have h1 := h sampleEnv sampleState "" (by decide)
  have h2 := h sampleEnv bgSampleState "" (by decide)
  rw [show (generate_response sampleEnv sampleState "").1 = prompt_enter_text from rfl,
    show sampleState.context.user_language = "en" from rfl] at h1
  rw [show (generate_response sampleEnv bgSampleState "").1 = prompt_enter_text from rfl,
    show bgSampleState.context.user_language = "bg" from rfl] at h2
  exact hne (by rw [← h1, ← h2])

/-! ### Contact footer (claim C6) -/

/-- C6 (amended): every response to non-blank input on which no uncaught
error occurs ends with the localized contact-information footer, which
contains `*2265` and differs between the two session languages.  (The
blank-input prompt and the top-level error response carry no footer —
see the counterexample.) -/
theorem generate_response_contact_footer (env : Env) (st : ChatbotState)
    (user_input : String) (hblank : pyBlank user_input = false)
    (hok : (generate_response_body env st user_input).isOk = true) :
    (contact_footer
        (generate_response env st user_input).2.context.user_language).data
      <:+ (generate_response env st user_input).1.data ∧
    pyContains
      (contact_footer (generate_response env st user_input).2.context.user_language)
      "*2265" = true ∧
    contact_footer "bg" ≠ contact_footer "en" := by
  unfold generate_response generate_response_body
  unfold generate_response_body at hok
  rw [hblank] at hok ⊢
  simp only [Bool.false_eq_true, if_false] at hok ⊢
  cases hdet : detect_language env.langdetect user_input with
  | error e =>
    rw [hdet] at hok
    simp [Except.isOk, Except.toBool] at hok
  | ok lang =>
    dsimp only
    refine ⟨?_, ?_, ?_⟩
    · rw [String.data_append]
      exact List.suffix_append _ _
    · unfold contact_footer
      split <;> decide
    · decide

/-- C6 witness: a concrete non-blank turn whose response carries the
footer. -/
theorem generate_response_contact_footer_witness :
    (contact_footer
        (generate_response sampleEnv sampleState "hi").2.context.user_language).data
      <:+ (generate_response sampleEnv sampleState "hi").1.data ∧
    pyContains
      (contact_footer (generate_response sampleEnv sampleState "hi").2.context.user_language)
      "*2265" = true ∧
    contact_footer "bg" ≠ contact_footer "en" :=
  generate_response_contact_footer sampleEnv sampleState "hi" (by decide) (by decide)

/-- C6 counterexample: the blank-input response does not end with the
contact footer (it does not even contain `*2265`). -/
theorem footer_missing_on_blank :
    ¬ ((contact_footer
        (generate_response sampleEnv sampleState "").2.context.user_language).data
      <:+ (generate_response sampleEnv sampleState "").1.data) := by
  decide

/-! ### Error absorption (claim C1) -/

/-- C1: `generate_response` always returns a response/state pair; when
the body raises (the modelled uncaught error is a
non-`LangDetectException` failure of the language detector), the caller
still receives a pair, whose response is the localized generic error
response for the session language at the raise point, and the state is
unchanged. -/
theorem generate_response_absorbs_errors (env : Env) (st : ChatbotState)
    (user_input : String) :
    (∃ response st', generate_response env st user_input = (response, st')) ∧
    (∀ st', generate_response_body env st user_input = .error st' →
      generate_response env st user_input
        = (generate_error_response st'.context.user_language, st')) ∧
    (pyBlank user_input = false →
      detect_language env.langdetect user_input = .error () →
      generate_response env st user_input
        = (generate_error_response st.context.user_language, st)) := by
  refine ⟨⟨_, _, rfl⟩, ?_, ?_⟩
  · intro st' herr
    unfold generate_response
    rw [herr]
  · intro hblank hdet
    have hbody : generate_response_body env st user_input = .error st := by
      unfold generate_response_body
      rw [hblank]
      simp only [Bool.false_eq_true, if_false]
      rw [hdet]
    unfold generate_response
    rw [hbody]

/-- C1 witness: a hard failure of the language detector on a non-blank
input yields the generic error response, not an exception. -/
theorem generate_response_absorbs_errors_witness :
    generate_response raiseEnv sampleState "hi"
      = (generate_error_response "en", sampleState) :=
  (generate_response_absorbs_errors raiseEnv sampleState "hi").2.2 (by decide) (by decide)

/-! ### Frame effect of a turn (claim C10) -/

/-- C10 (amended): a turn leaves the knowledge base, the compiled intent
patterns, the keyword configuration and the Gemini handle unchanged, and
of the conversation context it only rewrites the detected language and
appends to the history; but the semantic service's lazily built
embedding cache may also change (see the counterexample), so the
conversation context is not the only mutated state. -/
theorem generate_response_frame (env : Env) (st : ChatbotState) (user_input : String) :
    (generate_response env st user_input).2.knowledge_base = st.knowledge_base ∧
    (generate_response env st user_input).2.intent_patterns = st.intent_patterns ∧
    (generate_response env st user_input).2.keywords = st.keywords ∧
    (generate_response env st user_input).2.gemini = st.gemini ∧
    (generate_response env st user_input).2.context.current_topic
      = st.context.current_topic ∧
    (generate_response env st user_input).2.context.user_preferences
      = st.context.user_preferences ∧
    (generate_response env st user_input).2.context.conversation_memory
      = st.context.conversation_memory ∧
    (generate_response env st user_input).2.context.last_products_discussed
      = st.context.last_products_discussed ∧
    (generate_response env st user_input).2.context.user_interests
      = st.context.user_interests ∧
    (∃ appended, (generate_response env st user_input).2.context.conversation_history
      = st.context.conversation_history ++ appended) := by
  unfold generate_response generate_response_body
  cases hb : pyBlank user_input with
  | true =>
    dsimp only [if_pos]
    exact ⟨rfl, rfl, rfl, rfl, rfl, rfl, rfl, rfl, rfl, [], by simp⟩
  | false =>
    simp only [Bool.false_eq_true, if_false]
    cases hdet : detect_language env.langdetect user_input with
    | error e =>
      dsimp only
      exact ⟨rfl, rfl, rfl, rfl, rfl, rfl, rfl, rfl, rfl, [], by simp⟩
    | ok lang =>
      dsimp only
      exact ⟨rfl, rfl, rfl, rfl, rfl, rfl, rfl, rfl, rfl,
        [⟨user_input, env.now_iso, lang,
          (find_intent st.intent_patterns user_input).1,
          (find_intent st.intent_patterns user_input).2⟩], rfl⟩

/-- C10 counterexample: a general-intent turn on a fresh index builds
the embedding cache, mutating the semantic service state, so the
conversation context is not the only chatbot state a turn mutates. -/
theorem generate_response_mutates_semantic_cache :
    (generate_response sampleEnv sampleState "hi").2.semantic
      ≠ sampleState.semantic := by
  decide

end Fibank
